import Mathlib

/-!
Verification development for the Risk Evaluation Pipeline of the Veritas
identifier-trust checker: the local heuristic scoring engines (email and URL
variants), the URL redirect-chain resolver, the arbitration gateway with its
fallback tiers, and the result-assembly logic.

The TypeScript sources are embedded shallowly: JavaScript string operations
are modelled over character lists (ASCII case semantics), the platform URL
constructor is modelled by a simplified parser covering the components the
analyzer reads, and network effects (redirect probes, the arbitration
service, timeout races) are modelled by explicit oracle parameters.
-/

/-! ## JavaScript-style string utilities (ASCII semantics) -/

/-- ASCII lower-casing of a character, as JS `toLowerCase` acts on ASCII. -/
def lowerChar (c : Char) : Char :=
  if 'A' ≤ c && c ≤ 'Z' then Char.ofNat (c.toNat + 32) else c

/-- ASCII lower-casing of a string. -/
def lowerStr (s : String) : String := String.mk (s.toList.map lowerChar)

/-- Split on a single-character separator, JS `String.split` semantics
(`"".split(c) = [""]`, trailing separators yield empty segments). -/
def splitCharAux (c : Char) : List Char → List Char → List String
  | [], acc => [String.mk acc.reverse]
  | x :: xs, acc =>
    if x == c then String.mk acc.reverse :: splitCharAux c xs []
    else splitCharAux c xs (x :: acc)

def splitChar (c : Char) (s : String) : List String := splitCharAux c s.toList []

/-- JS `Array.join(sep)`. -/
def joinWith (sep : String) : List String → String
  | [] => ""
  | [x] => x
  | x :: y :: xs => x ++ sep ++ joinWith sep (y :: xs)

/-- Does `hay` start with `needle` (character lists)? -/
def charsLeadWith : List Char → List Char → Bool
  | [], _ => true
  | _ :: _, [] => false
  | a :: as, b :: bs => a == b && charsLeadWith as bs

/-- Does `needle` occur as a contiguous substring of `hay`? -/
def charsOccurIn (needle : List Char) : List Char → Bool
  | [] => charsLeadWith needle []
  | x :: xs => charsLeadWith needle (x :: xs) || charsOccurIn needle xs

/-- JS `s.includes(sub)`. -/
def strIncludes (s sub : String) : Bool := charsOccurIn sub.toList s.toList

/-- JS `s.startsWith(p)`. -/
def strStartsWith (s p : String) : Bool := charsLeadWith p.toList s.toList

/-- JS `s.endsWith(p)`. -/
def strEndsWith (s p : String) : Bool := charsLeadWith p.toList.reverse s.toList.reverse

/-- Drop the first `n` characters of a string. -/
def strDrop (s : String) (n : Nat) : String := String.mk (s.toList.drop n)

/-- Is there a run of at least `n` consecutive characters satisfying `p`?
Models regex `[...]{n,}` substring matching. -/
def hasRunAux (p : Char → Bool) (n : Nat) : List Char → Nat → Bool
  | [], cnt => decide (n ≤ cnt)
  | x :: xs, cnt =>
    if n ≤ cnt then true
    else if p x then hasRunAux p n xs (cnt + 1)
    else hasRunAux p n xs 0

def hasRun (p : Char → Bool) (n : Nat) (cs : List Char) : Bool := hasRunAux p n cs 0

/-- Is there a run of at least `n` consecutive equal characters?
Models regex `(.)\1{n-1,}`. -/
def repeatRunAux (n : Nat) : List Char → Char → Nat → Bool
  | [], _, cnt => decide (n ≤ cnt)
  | x :: xs, prev, cnt =>
    if n ≤ cnt then true
    else if x == prev then repeatRunAux n xs x (cnt + 1)
    else repeatRunAux n xs x 1

def hasRepeatRun (n : Nat) : List Char → Bool
  | [] => false
  | x :: xs => repeatRunAux n xs x 1

/-- Is there an occurrence of `c` with a character satisfying `p` somewhere
after it?  Models regex `c(?=.*[p])`. -/
def charThenLater (c : Char) (p : Char → Bool) : List Char → Bool
  | [] => false
  | x :: xs => (x == c && xs.any p) || charThenLater c p xs

/-- Lower-case letters, then an at-sign.  Helper for regex `I(?=[a-z]*@)`. -/
def lowersThenAt : List Char → Bool
  | [] => false
  | x :: xs => x == '@' || (x.isLower && lowersThenAt xs)

/-- Models regex `I(?=[a-z]*@)` substring matching. -/
def capIBeforeAt : List Char → Bool
  | [] => false
  | x :: xs => (x == 'I' && lowersThenAt xs) || capIBeforeAt xs

/-- `stem` occurs at the head, followed immediately by a digit. -/
def stemDigitAt : List Char → List Char → Bool
  | [], d :: _ => d.isDigit
  | [], [] => false
  | _ :: _, [] => false
  | a :: as, b :: bs => a == b && stemDigitAt as bs

/-- `stem` occurs somewhere, followed immediately by a digit.
Models regexes of the form `stem\d+` (substring matching). -/
def stemDigitIn (stem : List Char) : List Char → Bool
  | [] => false
  | x :: xs => stemDigitAt stem (x :: xs) || stemDigitIn stem xs

/-- Length of the leading digit run. -/
def digitRunLen : List Char → Nat
  | [] => 0
  | x :: xs => if x.isDigit then digitRunLen xs + 1 else 0

/-- `n + 1` dot-separated groups of 1-3 digits starting here (the last group
needs only a leading digit, as in an unanchored `\d{1,3}` tail). -/
def ipSegsFrom : Nat → List Char → Bool
  | 0, cs =>
    match cs with
    | x :: _ => x.isDigit
    | [] => false
  | n + 1, cs =>
    let r := digitRunLen cs
    decide (1 ≤ r) && decide (r ≤ 3) &&
      (match cs.drop r with
       | '.' :: rest => ipSegsFrom n rest
       | _ => false)

/-- Models the unanchored regex `\d{1,3}\.\d{1,3}\.\d{1,3}\.\d{1,3}`. -/
def ipQuadSomewhere : List Char → Bool
  | [] => false
  | x :: xs => ipSegsFrom 3 (x :: xs) || ipQuadSomewhere xs

/-- Models the anchored regex `^\d{1,3}\.\d{1,3}\.\d{1,3}\.\d{1,3}$` on a
hostname: exactly four dot-separated groups of 1-3 digits. -/
def isIPv4Host (host : String) : Bool :=
  let ps := splitChar '.' host
  ps.length == 4 &&
    ps.all (fun p => decide (1 ≤ p.length) && decide (p.length ≤ 3) &&
      p.toList.all Char.isDigit)

/-! ## Levenshtein distance

The source computes the classic dynamic-programming matrix
(`matrix[j][i] = min(matrix[j][i-1]+1, matrix[j-1][i]+1, matrix[j-1][i-1]+ind)`
with `matrix[0][i] = i`, `matrix[j][0] = j`, result `matrix[len2][len1]`).
Embedded here row by row. -/

def levInit (n : Nat) : List Nat := List.range (n + 1)

/-- Fill the tail of a DP row: `diag` is the previous row's entry one step
back, `left` the current row's previous entry, `prev` the previous row from
the current column onward. -/
def levRowGo (y : Char) : List Char → Nat → Nat → List Nat → List Nat
  | [], _, _, _ => []
  | x :: xs, diag, left, prev =>
    let up := prev.headD 0
    let cost := if x == y then 0 else 1
    let cur := min (left + 1) (min (up + 1) (diag + cost))
    cur :: levRowGo y xs up cur prev.tail

def levRow (y : Char) (xs : List Char) (prev : List Nat) : List Nat :=
  let first := prev.headD 0 + 1
  first :: levRowGo y xs (prev.headD 0) first prev.tail

def levenshteinList (xs ys : List Char) : Nat :=
  (ys.foldl (fun prev y => levRow y xs prev) (levInit xs.length)).getLastD 0

/-- `levenshteinDistance` from the source (generate-pdf.ts). -/
def levenshteinDistance (str1 str2 : String) : Nat :=
  levenshteinList str1.toList str2.toList

/-! ## Data model -/

/-- Email risk bands (`"safe" | "risky" | "invalid"`). -/
inductive EmailRisk | safe | risky | invalid
deriving DecidableEq, Repr

/-- Email arbiter verdicts (`"legitimate" | "suspicious" | "fake"`). -/
inductive EmailVerdict | legitimate | suspicious | fake
deriving DecidableEq, Repr

/-- URL risk bands and URL arbiter verdicts share one vocabulary
(`"safe" | "suspicious" | "dangerous"`). -/
inductive URLRisk | safe | suspicious | dangerous
deriving DecidableEq, Repr

/-- `SpamCheckResult` from generate-pdf.ts. -/
structure SpamCheckResult where
  email : String
  isSpam : Bool
  riskLevel : EmailRisk
  spamScore : Nat
  indicators : List String
  reason : String
  aiAnalysis : Option String
  geminiVerdict : Option EmailVerdict
deriving DecidableEq, Repr

/-- `URLCheckResult` from check-url/route.ts. -/
structure URLCheckResult where
  url : String
  isSafe : Bool
  riskLevel : URLRisk
  riskScore : Nat
  indicators : List String
  redirectChain : Option (List String)
  finalDestination : Option String
  isShortened : Option Bool
  reason : String
  aiAnalysis : Option String
  geminiVerdict : Option URLRisk
deriving DecidableEq, Repr

/-! ## URL parsing

The routes call the platform `new URL(...)` constructor.  That is a platform
builtin, not repository code; it is modelled here by a simplified WHATWG-style
parser covering exactly the components the analyzer reads (`protocol`,
lower-cased `hostname`, non-default `port`, `pathname`, query keys).
Simplifications: special-scheme URLs must carry the literal `//`, IPv6 hosts
and percent-decoding are not modelled, and host-character validation is
limited to non-emptiness. -/

structure URLParts where
  scheme : String
  hostname : String
  port : String
  pathname : String
  search : String
deriving DecidableEq, Repr

def schemeOkChar (c : Char) : Bool := c.isAlphanum || c == '+' || c == '-' || c == '.'

def validScheme (s : String) : Bool :=
  match s.toList with
  | [] => false
  | c :: rest => c.isAlpha && rest.all schemeOkChar

def specialSchemes : List String := ["http", "https", "ws", "wss", "ftp"]

def defaultPortFor (scheme : String) : String :=
  if scheme == "http" || scheme == "ws" then "80"
  else if scheme == "https" || scheme == "wss" then "443"
  else if scheme == "ftp" then "21"
  else ""

def parseURL (url : String) : Option URLParts :=
  let noFrag := (splitChar '#' url).headD ""
  match splitChar ':' noFrag with
  | [] => none
  | [_] => none
  | schemeRaw :: restParts =>
    if !validScheme schemeRaw then none
    else
      let scheme := lowerStr schemeRaw
      let rest := joinWith ":" restParts
      if specialSchemes.contains scheme then
        if !strStartsWith rest "//" then none
        else
          let afterSlashes := (strDrop rest 2).toList
          let authority :=
            String.mk (afterSlashes.takeWhile (fun c => c != '/' && c != '?'))
          let remainder := afterSlashes.dropWhile (fun c => c != '/' && c != '?')
          let hostPort := (splitChar '@' authority).getLastD ""
          let hps := splitChar ':' hostPort
          let hostRaw := if hps.length ≤ 1 then hostPort else joinWith ":" hps.dropLast
          let portRaw := if hps.length ≤ 1 then "" else hps.getLastD ""
          if portRaw != "" && !(portRaw.toList.all Char.isDigit) then none
          else
            let hostname := lowerStr hostRaw
            if hostname == "" then none
            else
              let port := if portRaw == defaultPortFor scheme then "" else portRaw
              let pathRaw := String.mk (remainder.takeWhile (fun c => c != '?'))
              let pathname := if pathRaw == "" then "/" else pathRaw
              let search := String.mk ((remainder.dropWhile (fun c => c != '?')).drop 1)
              some ⟨scheme, hostname, port, pathname, search⟩
      else
        let pathname := String.mk (rest.toList.takeWhile (fun c => c != '?'))
        let search := String.mk ((rest.toList.dropWhile (fun c => c != '?')).drop 1)
        some ⟨scheme, "", "", pathname, search⟩

/-- Keys of `URLSearchParams` (without percent-decoding). -/
def queryKeys (search : String) : List String :=
  ((splitChar '&' search).filter (fun kv => kv != "")).map
    (fun kv => (splitChar '=' kv).headD "")

/-! ## Indicator accumulation

Each detection rule in the source pushes an indicator string and adds its
weight to the running score in the same `if` block.  A rule outcome is
modelled as a list of (description, weight) pairs; the scorer replays the
push/add pairs sequentially. -/

/-- A single `if (cond) { indicators.push(d); score += w }` block. -/
def condInd (b : Bool) (d : String) (w : Nat) : List (String × Nat) :=
  if b then [(d, w)] else []

/-- Sequentially replay push/add pairs, as the source's two mutable
variables do. -/
def runChecks (items : List (String × Nat)) : List String × Nat :=
  items.foldl (fun st iw => (st.1 ++ [iw.1], st.2 + iw.2)) ([], 0)

/-! ## Email rule tables (generate-pdf.ts) -/

def disposableDomains : List String :=
  ["tempmail.com", "10minutemail.com", "guerrillamail.com", "mailinator.com",
   "temp-mail.org", "throwaway.email", "yopmail.com", "maildrop.cc",
   "trashmail.com", "tempmail.org", "sharklasers.com", "spam4.me", "grr.la",
   "guerrillamail.info", "mintemail.com", "mytrashmail.com"]

def freeDomains : List String :=
  ["gmail.com", "yahoo.com", "hotmail.com", "outlook.com", "aol.com"]

def corporateKeywords : List String :=
  ["amazon", "apple", "microsoft", "google", "facebook", "twitter", "netflix",
   "paypal", "bank", "security", "admin", "support", "billing"]

/-- The `trustedBrands` record, in entry order (legitimate domain, known typo
variants). -/
def trustedBrandsList : List (String × List String) :=
  [("amazon.com", ["amason.com", "amzaon.com", "amazn.com", "ammozon.com", "anazon.com", "amazom.com"]),
   ("apple.com", ["appel.com", "aple.com", "appple.com", "appl.com", "app1e.com"]),
   ("microsoft.com", ["microsft.com", "microsfot.com", "microosoft.com", "microsof.com", "micros0ft.com"]),
   ("google.com", ["gogle.com", "googel.com", "googl.com", "g00gle.com", "gooogle.com"]),
   ("paypal.com", ["paypall.com", "paypa1.com", "paypa.com", "payal.com", "paypaI.com", "paypai.com"]),
   ("chase.com", ["chace.com", "chas.com", "chaze.com", "chasse.com"]),
   ("bankofamerica.com", ["bankofamerica.co", "bank-of-america.com", "bankofamerca.com"]),
   ("wellsfargo.com", ["wellsfargo.co", "wellsfago.com", "wells-fargo.com"]),
   ("citibank.com", ["citibank.co", "citibanc.com", "citi-bank.com"]),
   ("gmail.com", ["gmai1.com", "gmall.com", "gmial.com", "gamil.com", "gmai.com"]),
   ("yahoo.com", ["yaho.com", "yahooo.com", "yaho0.com", "yahho.com"]),
   ("outlook.com", ["outlok.com", "0utlook.com", "out1ook.com"]),
   ("facebook.com", ["faceb00k.com", "facebok.com", "face-book.com", "faceboook.com"]),
   ("instagram.com", ["instgram.com", "instagran.com", "inst4gram.com"]),
   ("twitter.com", ["twiter.com", "twiiter.com", "twittter.com"]),
   ("linkedin.com", ["linkedln.com", "linked-in.com", "linkdin.com"]),
   ("netflix.com", ["netfl1x.com", "netflx.com", "netflix.co", "netflex.com"]),
   ("spotify.com", ["spotfy.com", "spotifi.com", "spot1fy.com"]),
   ("ebay.com", ["ebey.com", "e-bay.com", "ebay.co"]),
   ("fedex.com", ["fedx.com", "fed-ex.com", "fedex.co"]),
   ("usps.com", ["usps.co", "u5ps.com", "usps.net"]),
   ("dhl.com", ["dh1.com", "dhI.com"])]

def comboBrandWords1 : List String :=
  ["amazon", "paypal", "apple", "microsoft", "google", "netflix", "facebook"]

def comboBrandWords2 : List String := ["chase", "bank", "citibank", "wells", "fargo"]

def comboServiceWords : List String := ["service", "support", "account", "verify", "security"]

def comboBrandWords3 : List String := ["amazon", "paypal", "apple", "google"]

def emailSuspiciousKeywords : List String :=
  ["noreply", "donotreply", "no-reply", "urgent", "verify", "confirm", "alert",
   "action", "required", "update", "security", "account", "spam", "admin",
   "test", "fake", "tmp", "temp", "payment", "wire", "transfer", "invoice",
   "receipt", "confirm-identity", "verify-account", "suspend", "locked",
   "compromised", "unauthorized"]

def becExecutiveWords : List String := ["ceo", "executive", "cfo", "cto", "director"]

def becFinanceWords : List String := ["finance", "accounting", "payroll", "treasury"]

def becTransactionWords : List String := ["wire", "transfer", "payment", "invoice"]

def emailSuspiciousTLDs : List String :=
  [".tk", ".ml", ".ga", ".cf", ".gq", ".xyz", ".top", ".win", ".bid",
   ".stream", ".download", ".pw", ".ws", ".cc", ".tv", ".link", ".click",
   ".info", ".biz", ".online", ".site", ".website", ".ru", ".cn", ".br", ".in"]

def emailShortenerDomains : List String :=
  ["bit.ly", "tinyurl.com", "goo.gl", "ow.ly", "t.co", "is.gd", "buff.ly",
   "adf.ly", "shorturl.at", "cutt.ly", "rb.gy"]

def suspiciousSuffixes : List String :=
  ["verify", "update", "confirm", "alert", "security", "support", "admin",
   "account", "service", "portal", "login", "signin", "secure", "auth"]

def brandPatterns : List String :=
  ["micro-soft", "amaz-on", "app-le", "pay-pal", "google-", "-google", "face-book"]

def veryGenericNames : List String :=
  ["admin", "test", "user", "info", "support", "noreply", "mail"]

def expiredDomainWords : List String :=
  ["parked", "expired", "forsale", "available", "register"]

/-- `keyboardProximityPairs` from the source. -/
def keyboardAdjacent (c : Char) : List Char :=
  if c == 'a' then ['s', 'q', 'w', 'z']
  else if c == 'e' then ['r', 'w', 'd']
  else if c == 'i' then ['o', 'u', 'k']
  else if c == 'o' then ['i', 'p', 'l']
  else if c == 'n' then ['m', 'b', 'h']
  else []

/-- Number of positions where the strings differ by a keyboard-adjacent
character (the source's `proximityMatches` count over equal-length names). -/
def proximityCount : List Char → List Char → Nat
  | a :: as, b :: bs =>
    (if a != b && (keyboardAdjacent a).contains b then 1 else 0) + proximityCount as bs
  | _, _ => 0

/-- `detectHomoglyphAttack` from the source.  The literal Cyrillic lookalike
keys are stored mojibake-damaged in the source file; they are modelled by the
Cyrillic characters they decode from (all of which also lie in the checked
U+0400 block). -/
def homoglyphLiterals : List String :=
  ["а", "е", "о", "р", "с", "х", "у", "к", "н"]

def suspiciousRangeChar (c : Char) : Bool :=
  (decide (0x370 ≤ c.toNat) && decide (c.toNat ≤ 0x3FF)) ||
  (decide (0x400 ≤ c.toNat) && decide (c.toNat ≤ 0x4FF)) ||
  (decide (0x500 ≤ c.toNat) && decide (c.toNat ≤ 0x52F))

def detectHomoglyphAttack (email : String) : Bool :=
  homoglyphLiterals.any (fun l => strIncludes email l) ||
  email.toList.any suspiciousRangeChar

/-- Stems of regex `support-?id-?\d+|ticket-?\d+|case-?\d+|ref-?\d+|transaction-?\d+`:
each stem must be followed directly by a digit. -/
def supportIdStems : List String :=
  ["supportid", "support-id", "supportid-", "support-id-", "ticket", "ticket-",
   "case", "case-", "ref", "ref-", "transaction", "transaction-"]

def supportIdPattern (u : String) : Bool :=
  supportIdStems.any (fun st => stemDigitIn st.toList u.toList)

/-! ## Email feature extraction -/

/-- `domainParts.slice(-2).join(".")`. -/
def baseDomainOf (domain : String) : String :=
  let ps := splitChar '.' domain
  joinWith "." (ps.drop (ps.length - 2))

/-- `domainParts.slice(0, -2).join(".")` when there are subdomains, else `""`. -/
def subdomainOf (domain : String) : String :=
  let ps := splitChar '.' domain
  if 2 < ps.length then joinWith "." (ps.take (ps.length - 2)) else ""

/-- `s.split(".")[0]`. -/
def brandNameOf (s : String) : String := (splitChar '.' s).headD ""

/-- The base name of the candidate's registrable domain,
`baseDomain.split(".")[0]`. -/
def baseNameOf (domain : String) : String := brandNameOf (baseDomainOf domain)

/-- `const [username, domain] = emailLower.split("@")` followed by the
`!username || !domain` guard: the first two segments of the at-split, rejected
when either is missing or empty. -/
def emailParts (emailLower : String) : Option (String × String) :=
  match splitChar '@' emailLower with
  | u :: d :: _ => if u == "" || d == "" then none else some (u, d)
  | _ => none

/-! ## Email detection rules -/

/-- The fuzzy-match firing condition:
`distance > 0 && distance <= 2 && domainName.length >= 4`. -/
def isFuzzyHit (domainName legitName : String) : Bool :=
  let distance := levenshteinDistance domainName legitName
  decide (0 < distance) && decide (distance ≤ 2) && decide (4 ≤ domainName.length)

def fuzzyDesc (domainName legitName : String) : String :=
  "TYPOSQUATTING (fuzzy match): " ++ domainName ++ " resembles " ++ legitName

/-- The typosquatting loop over `trustedBrands`: exact typo hits accumulate
without stopping; the first fuzzy hit fires once and breaks the loop. -/
def emailBrandLoop (domain baseDomain : String) :
    List (String × List String) → List (String × Nat)
  | [] => []
  | (legitimate, typos) :: rest =>
    let exact := condInd (typos.contains domain || typos.contains baseDomain)
      ("TYPOSQUATTING CONFIRMED: " ++ domain ++ " mimics " ++ legitimate) 75
    let domainName := brandNameOf baseDomain
    let legitName := brandNameOf legitimate
    if isFuzzyHit domainName legitName then
      exact ++ [(fuzzyDesc domainName legitName, 55)]
    else
      exact ++ emailBrandLoop domain baseDomain rest

/-- The keyboard-proximity loop: fires for the first brand whose name has the
same length as the candidate name and differs in exactly one keyboard-adjacent
position, then breaks. -/
def emailKeyboardLoop (baseDomain : String) :
    List (String × List String) → List (String × Nat)
  | [] => []
  | (legitimate, _) :: rest =>
    let legitName := brandNameOf legitimate
    let domainName := brandNameOf baseDomain
    if legitName.length == domainName.length &&
        proximityCount legitName.toList domainName.toList == 1 then
      [("Keyboard proximity typo: " ++ domainName ++ " is one key away from " ++ legitName, 50)]
    else emailKeyboardLoop baseDomain rest

/-- The suspicious-suffix loop: fires for the first suffix appearing as
`-suffix` or `suffix-` in the domain, then breaks. -/
def emailSuffixLoop (domain : String) : List String → List (String × Nat)
  | [] => []
  | s :: rest =>
    if strIncludes domain ("-" ++ s) || strIncludes domain (s ++ "-") then
      [("Suspicious domain suffix: Contains " ++ s ++ " (common phishing tactic)", 40)]
    else emailSuffixLoop domain rest

/-- All email rule outcomes in source emission order.  Each `condInd`
corresponds to one `indicators.push(...)` / `spamScore += ...` block of
`performLocalSpamDetection`; the loop rules keep their break semantics.
Indicator descriptions are kept close to the source but the exact wording
carries no weight. -/
def emailFiredIndicators (email username domain : String) : List (String × Nat) :=
  let emailLower := lowerStr email
  let domainParts := splitChar '.' domain
  let baseDomain := baseDomainOf domain
  let subdomain := subdomainOf domain
  let domainName := baseNameOf domain
  let tld := lowerStr (domainParts.getLastD "")
  let hasLetter := baseDomain.toList.any Char.isLower
  let matchedKeywords := emailSuspiciousKeywords.filter (fun k => strIncludes username k)
  condInd (disposableDomains.contains domain)
    "Disposable/temporary email domain detected" 50
  ++ condInd (freeDomains.contains domain &&
        corporateKeywords.any (fun k => strIncludes username k))
    "Corporate impersonation attempt detected (free domain + business keywords)" 45
  ++ emailBrandLoop domain baseDomain trustedBrandsList
  ++ condInd (comboBrandWords1.any (fun b =>
        strIncludes domain (b ++ "-") || strIncludes domain (b ++ ".")))
    "Combo domain attack: Uses major tech/retail brand name in suspicious context" 45
  ++ condInd (comboBrandWords2.any (fun b =>
        strIncludes domain (b ++ "-") || strIncludes domain (b ++ ".")))
    "Combo domain attack: Uses financial institution name in suspicious context" 45
  ++ condInd (comboServiceWords.any (fun w => comboBrandWords3.any (fun b =>
        strIncludes domain (w ++ "-" ++ b) || strIncludes domain (w ++ "." ++ b))))
    "Combo domain attack: Uses service subdomain + brand name in suspicious context" 45
  ++ emailKeyboardLoop baseDomain trustedBrandsList
  ++ condInd (hasRun (fun c => c == '0' || c == 'o' || c == 'O') 2 baseDomain.toList
        && hasLetter)
    "Number/letter substitution: Uses o/0 confusion" 40
  ++ condInd (hasRun (fun c => c == '1' || c == 'i' || c == 'l' || c == 'I' || c == 'L') 2
        baseDomain.toList && hasLetter)
    "Number/letter substitution: Uses i/l/1 confusion" 40
  ++ condInd (baseDomain.toList.contains '5' &&
        (baseDomain.toList.contains 's' || baseDomain.toList.contains 'S') && hasLetter)
    "Number/letter substitution: Uses s/5 confusion" 40
  ++ condInd (baseDomain.toList.contains '3' &&
        (baseDomain.toList.contains 'e' || baseDomain.toList.contains 'E') && hasLetter)
    "Number/letter substitution: Uses e/3 confusion" 40
  ++ condInd (detectHomoglyphAttack email)
    "Homoglyph attack detected: Non-Latin characters detected (Cyrillic/Greek/etc.)" 50
  ++ condInd (charThenLater '0' Char.isLower domain.toList)
    "Homoglyph attack in domain: Zero/O substitution" 30
  ++ condInd (charThenLater '1' Char.isLower domain.toList)
    "Homoglyph attack in domain: One/l substitution" 30
  ++ condInd (hasRun (fun c => c == '5' || c == 'S' || c == 's') 2 domain.toList)
    "Homoglyph attack in domain: S/5 pattern repetition" 30
  ++ condInd (capIBeforeAt domain.toList)
    "Homoglyph attack in domain: Capital I/lowercase l in domain" 30
  ++ condInd (0 < matchedKeywords.length)
    ("Suspicious keywords detected: " ++ joinWith ", " matchedKeywords)
    (min (matchedKeywords.length * 10) 40)
  ++ condInd (becExecutiveWords.any (fun w => strIncludes emailLower w))
    "Business Email Compromise (BEC) pattern: Executive role in username" 25
  ++ condInd (becFinanceWords.any (fun w => strIncludes emailLower w))
    "Business Email Compromise (BEC) pattern: Finance/banking keywords" 20
  ++ condInd (becTransactionWords.any (fun w => strIncludes emailLower w))
    "Business Email Compromise (BEC) pattern: Financial transaction keywords" 25
  ++ condInd (hasRun Char.isDigit 5 email.toList) "Excessive random numbers" 25
  ++ condInd (hasRepeatRun 5 email.toList) "Repeating characters detected" 20
  ++ condInd (emailSuspiciousTLDs.contains ("." ++ tld))
    ("High-risk TLD: ." ++ tld ++ " (frequently used for phishing/spam)") 35
  ++ condInd (emailShortenerDomains.contains baseDomain)
    ("URL shortener domain: " ++ baseDomain ++ " (can hide malicious destinations)") 30
  ++ condInd (decide (3 < domainParts.length))
    "Overly complex domain structure (excessive subdomains - possible subdomain confusion attack)" 25
  ++ condInd (strIncludes domain ".com-" || strIncludes domain ".net-" ||
        strIncludes domain ".org-")
    "SUBDOMAIN CONFUSION: Domain contains .com- pattern (real domain is after the hyphen)" 65
  ++ emailSuffixLoop domain suspiciousSuffixes
  ++ condInd (subdomain != "" &&
        trustedBrandsList.any (fun p => strIncludes subdomain (brandNameOf p.1)))
    "Brand impersonation in subdomain: Trusted brand appears before real domain" 50
  ++ condInd (brandPatterns.any (fun p => strIncludes domain p))
    "Domain uses hyphens to break up brand names (spoofing technique)" 35
  ++ condInd (decide (username.length < 2)) "Extremely short username (typically invalid)" 20
  ++ condInd (decide (64 < username.length)) "Unusually long username" 15
  ++ condInd (veryGenericNames.contains username && !(freeDomains.contains domain))
    ("Generic username " ++ username ++ " on unknown domain") 20
  ++ condInd ((strIncludes domain "company" || strIncludes domain "corp" ||
        strEndsWith domain ".edu") &&
        emailSuspiciousKeywords.any (fun k => strIncludes username k))
    "Mismatch: Professional domain paired with suspicious username" 25
  ++ condInd (strIncludes username "++") "Email aliasing pattern detected (Gmail ++ technique)" 15
  ++ condInd (hasRun (fun c => c == '.' || c == '-' || c == '_') 2 username.toList)
    "Multiple consecutive special characters in username" 15
  ++ condInd (strIncludes domain "xn--")
    "PUNYCODE DETECTED: Domain uses internationalized encoding (possible homoglyph attack)" 60
  ++ condInd (ipQuadSomewhere domain.toList)
    "IP ADDRESS AS DOMAIN: Using raw IP instead of domain name (major red flag)" 80
  ++ condInd (supportIdPattern username)
    "Generic service ID pattern: Username looks like auto-generated support ticket" 30
  ++ (expiredDomainWords.map (fun w => condInd (strIncludes domain w)
        ("Expired/parked domain indicator: Domain contains " ++ w) 45)).flatten
  ++ condInd (decide (3 ≤ (domain.toList.filter (fun c => c == '-')).length))
    "Excessive hyphens in domain: obfuscation tactic" 35
  ++ condInd (domain.toList.any Char.isUpper && domain != lowerStr domain)
    "Mixed case in domain: Legitimate domains do not use uppercase" 25
  ++ condInd (decide (5 < domainName.length) &&
        !(domainName.toList.any (fun c =>
          c == 'a' || c == 'e' || c == 'i' || c == 'o' || c == 'u')))
    ("Vowel-less domain: " ++ domainName ++ " appears to be gibberish") 30

/-! ## Email local scorer -/

/-- `if (spamScore >= 35) riskLevel = "risky"; if (spamScore >= 65) riskLevel = "invalid"`. -/
def emailRiskLevelOf (score : Nat) : EmailRisk :=
  let r := EmailRisk.safe
  let r := if score ≥ 35 then EmailRisk.risky else r
  let r := if score ≥ 65 then EmailRisk.invalid else r
  r

/-- Assemble the non-short-circuit result of `performLocalSpamDetection` from
the replayed indicator/score state. -/
def mkEmailResult (email : String) (st : List String × Nat) : SpamCheckResult :=
  { email := email
    isSpam := decide (35 < min st.2 100)
    riskLevel := emailRiskLevelOf (min st.2 100)
    spamScore := min st.2 100
    indicators := st.1
    reason := if st.1.isEmpty then "Email appears legitimate"
      else "Detected " ++ toString st.1.length ++ " risk indicator(s)"
    aiAnalysis := none
    geminiVerdict := none }

/-- `performLocalSpamDetection` from generate-pdf.ts. -/
def performLocalSpamDetection (email : String) : SpamCheckResult :=
  match emailParts (lowerStr email) with
  | none =>
    { email := email, isSpam := true, riskLevel := EmailRisk.invalid,
      spamScore := 100, indicators := ["Invalid email format"],
      reason := "Email format is invalid", aiAnalysis := none, geminiVerdict := none }
  | some (username, domain) =>
    mkEmailResult email (runChecks (emailFiredIndicators email username domain))

/-- The fired indicators with their weight contributions, including the
short-circuit case (whose single indicator carries the full weight 100). -/
def emailFiredWith (email : String) : List (String × Nat) :=
  match emailParts (lowerStr email) with
  | none => [("Invalid email format", 100)]
  | some (username, domain) => emailFiredIndicators email username domain

/-! ## URL rule tables (check-url/route.ts) -/

def urlShorteners : List String :=
  ["bit.ly", "tinyurl.com", "goo.gl", "ow.ly", "t.co", "is.gd", "buff.ly",
   "adf.ly", "shorturl.at", "cutt.ly", "rb.gy", "short.io", "tiny.cc",
   "tr.im", "cli.gs", "u.nu", "x.co", "budurl.com"]

def urlSuspiciousTLDs : List String :=
  [".tk", ".ml", ".ga", ".cf", ".gq", ".xyz", ".top", ".win", ".bid",
   ".stream", ".download", ".click", ".pw", ".ws", ".cc", ".zip", ".review",
   ".loan", ".faith", ".science", ".work", ".party", ".gdn", ".men", ".date"]

def urlTrustedBrands : List String :=
  ["google.com", "facebook.com", "amazon.com", "paypal.com", "microsoft.com",
   "apple.com", "netflix.com", "instagram.com", "twitter.com", "linkedin.com",
   "ebay.com", "walmart.com", "chase.com", "bankofamerica.com", "wellsfargo.com"]

def urlSuspiciousKeywords : List String :=
  ["verify", "account", "secure", "login", "signin", "update", "confirm",
   "suspended", "locked", "urgent", "alert", "security", "authentication",
   "billing", "payment", "wallet", "bank", "credential", "password"]

def urlSuspiciousParams : List String :=
  ["redirect", "url", "link", "goto", "return", "continue", "next"]

def dangerousExtensions : List String :=
  [".exe", ".scr", ".bat", ".cmd", ".com", ".pif", ".apk", ".dmg"]

/-! ## URL local analyzer -/

/-- All URL rule outcomes in source emission order, one `condInd` per
`indicators.push(...)` / `riskScore += ...` block of `performLocalURLAnalysis`. -/
def urlFiredIndicators (url : String) (u : URLParts) : List (String × Nat) :=
  let domain := u.hostname
  let protocol := u.scheme ++ ":"
  let path := u.pathname
  let tld := (splitChar '.' domain).getLastD ""
  let foundKeywords := urlSuspiciousKeywords.filter (fun k => strIncludes (lowerStr url) k)
  let paramKeys := queryKeys u.search
  let foundParams := paramKeys.filter (fun k => urlSuspiciousParams.contains (lowerStr k))
  condInd (protocol != "https:")
    "NO SSL/HTTPS: Website does not use secure encryption" 50
  ++ condInd (isIPv4Host domain)
    "IP ADDRESS: Using raw IP instead of domain name (extremely suspicious)" 80
  ++ condInd (urlShorteners.any (fun s => strIncludes domain s))
    "URL SHORTENER: Link hides real destination (could redirect to malicious site)" 40
  ++ condInd (urlSuspiciousTLDs.contains ("." ++ tld))
    ("HIGH-RISK TLD: ." ++ tld ++ " extension frequently used for phishing/malware") 35
  ++ (urlTrustedBrands.map (fun brand =>
        condInd (strIncludes domain (brandNameOf brand) && !(strEndsWith domain brand))
          ("BRAND IMPERSONATION: Domain contains " ++ brandNameOf brand ++
            " but is NOT the official site") 60)).flatten
  ++ condInd (strIncludes domain ".com-" || strIncludes domain ".net-" ||
        strIncludes domain ".org-")
    "SUBDOMAIN CONFUSION: Contains .com- pattern (real domain is AFTER the hyphen)" 70
  ++ condInd (decide (3 ≤ (domain.toList.filter (fun c => c == '-')).length))
    "EXCESSIVE HYPHENS: hyphens detected (common phishing tactic)" 30
  ++ condInd (decide (3 ≤ (splitChar '.' domain).length - 2))
    "COMPLEX SUBDOMAIN: subdomains (possible obfuscation)" 25
  ++ condInd (decide (2 ≤ foundKeywords.length))
    ("PHISHING KEYWORDS: Found " ++ joinWith ", " foundKeywords ++ " (common in scam URLs)") 35
  ++ condInd (decide (100 < path.length))
    "UNUSUALLY LONG URL PATH: possible obfuscation" 20
  ++ condInd (hasRun (fun c => c.isLower || c.isDigit) 30 path.toList)
    "RANDOM CHARACTER STRING: Path contains long random sequence" 25
  ++ condInd (decide (0 < foundParams.length))
    ("REDIRECT PARAMETERS: Found " ++ joinWith ", " foundParams ++ " (possible redirect chain)") 30
  ++ condInd (strIncludes domain "xn--")
    "PUNYCODE DETECTED: Domain uses internationalized encoding (possible homoglyph attack)" 60
  ++ condInd (decide (1 < (splitChar '@' url).length))
    "URL OBFUSCATION: Contains @ symbol (can hide real destination)" 70
  ++ condInd (u.port != "" && !(["80", "443", "8080"].contains u.port))
    ("UNUSUAL PORT: Using port " ++ u.port ++ " (could be malicious service)") 35
  ++ condInd (dangerousExtensions.any (fun e => strEndsWith (lowerStr path) e))
    "EXECUTABLE FILE: URL points to downloadable executable (high malware risk)" 75
  ++ condInd (protocol == "data:")
    "DATA URL: Embedded data (could contain malicious content)" 45
  ++ condInd (protocol == "javascript:")
    "JAVASCRIPT PROTOCOL: Extremely dangerous (code execution risk)" 90

/-- `if (riskScore >= 30) riskLevel = "suspicious"; if (riskScore >= 60) riskLevel = "dangerous"`. -/
def urlRiskLevelOf (score : Nat) : URLRisk :=
  let r := URLRisk.safe
  let r := if score ≥ 30 then URLRisk.suspicious else r
  let r := if score ≥ 60 then URLRisk.dangerous else r
  r

/-- Assemble the non-failure result of `performLocalURLAnalysis` from the
replayed indicator/score state. -/
def mkURLResult (url : String) (st : List String × Nat) : URLCheckResult :=
  { url := url
    isSafe := decide (min st.2 100 < 30)
    riskLevel := urlRiskLevelOf (min st.2 100)
    riskScore := min st.2 100
    indicators := st.1
    redirectChain := none
    finalDestination := none
    isShortened := none
    reason := if st.1.isEmpty then "URL appears safe - no red flags detected"
      else "Detected " ++ toString st.1.length ++ " security concern(s)"
    aiAnalysis := none
    geminiVerdict := none }

/-- `performLocalURLAnalysis` from check-url/route.ts.  The `catch` branch of
the source (thrown by the URL constructor) is the `none` case. -/
def performLocalURLAnalysis (url : String) : URLCheckResult :=
  match parseURL url with
  | none =>
    { url := url, isSafe := false, riskLevel := URLRisk.dangerous,
      riskScore := 100, indicators := ["Invalid URL format - unable to parse"],
      redirectChain := none, finalDestination := none, isShortened := none,
      reason := "URL parsing failed - potentially malformed or malicious",
      aiAnalysis := none, geminiVerdict := none }
  | some u => mkURLResult url (runChecks (urlFiredIndicators url u))

/-- The fired indicators with their weight contributions, including the
parse-failure case (whose single indicator carries the full weight 100). -/
def urlFiredWith (url : String) : List (String × Nat) :=
  match parseURL url with
  | none => [("Invalid URL format - unable to parse", 100)]
  | some u => urlFiredIndicators url u

/-! ## Redirect resolver (check-url/route.ts)

Network probes are modelled by an oracle `probe : String → Option String`
returning the already-resolved absolute redirect target of a 3xx response
with a Location header, or `none` for any terminating outcome (non-redirect
status, missing Location, or a hop failure, which the source treats alike by
breaking the loop).  The wall-clock budgets are real-time behavior and are
abstracted away; the hop budget of 5 is kept. -/

structure RedirectInfo where
  finalUrl : String
  redirectChain : List String
  isShortened : Bool
deriving DecidableEq, Repr

/-- The manual redirect-following loop: stops on fuel exhaustion, a
terminating probe, or when the target is already in the chain (the cycle
check happens before the push). -/
def resolveLoop (probe : String → Option String) :
    Nat → String → List String → String × List String
  | 0, cur, chain => (cur, chain)
  | n + 1, cur, chain =>
    match probe cur with
    | none => (cur, chain)
    | some target =>
      if chain.contains target then (cur, chain)
      else resolveLoop probe n target (chain ++ [target])

/-- `resolveURLRedirects` from check-url/route.ts: flags known shorteners by
substring containment on the original hostname, then follows at most 5
redirects. -/
def resolveURLRedirects (probe : String → Option String) (url : String) : RedirectInfo :=
  match parseURL url with
  | none => { finalUrl := url, redirectChain := [url], isShortened := false }
  | some u =>
    let isShort := urlShorteners.any (fun s => strIncludes u.hostname s)
    let r := resolveLoop probe 5 url [url]
    { finalUrl := r.1, redirectChain := r.2, isShortened := isShort }

/-! ## Arbiter gateway and route handlers

The external arbitration service and the timeout races around it are
non-deterministic; they are modelled by explicit outcome parameters.  An
`ok` outcome is a normal structured response; `timeout`/`error` are the
conditions the source's `catch` blocks convert into fixed fallback verdicts. -/

inductive EmailGeminiOutcome
  | error
  | ok (verdict : EmailVerdict) (explanation : String)
deriving DecidableEq, Repr

/-- `getGeminiAnalysis` from generate-pdf.ts (prompt construction elided:
`_email` and `_localFindings` only feed the prompt). -/
def getGeminiAnalysis (hasKey : Bool) (out : EmailGeminiOutcome)
    ( _email : String) ( _localFindings : SpamCheckResult) : EmailVerdict × String :=
  if !hasKey then
    (EmailVerdict.suspicious,
     "API key not configured. Please set GOOGLE_GENERATIVE_AI_API_KEY environment variable.")
  else
    match out with
    | EmailGeminiOutcome.error =>
      (EmailVerdict.suspicious, "AI analysis encountered an error. Please try again.")
    | EmailGeminiOutcome.ok v e => (v, e)

/-- The band-to-verdict mapping of the unconfigured-key path of the email
route (`invalid → fake`, `risky → suspicious`, else `legitimate`). -/
def bandToEmailVerdict : EmailRisk → EmailVerdict
  | EmailRisk.invalid => EmailVerdict.fake
  | EmailRisk.risky => EmailVerdict.suspicious
  | EmailRisk.safe => EmailVerdict.legitimate

/-- The verdict-to-band mapping of the email result assembler
(`fake → invalid`, `suspicious → risky`, else `safe`). -/
def emailVerdictToBand : EmailVerdict → EmailRisk
  | EmailVerdict.fake => EmailRisk.invalid
  | EmailVerdict.suspicious => EmailRisk.risky
  | EmailVerdict.legitimate => EmailRisk.safe

/-- The email `POST` handler from generate-pdf.ts (request validation and
HTTP plumbing elided). -/
def emailPOST (hasKey : Bool) (out : EmailGeminiOutcome) (email : String) :
    SpamCheckResult :=
  let localResult := performLocalSpamDetection email
  if !hasKey then
    { localResult with
      aiAnalysis := some "API key not configured. Using local analysis only.",
      geminiVerdict := some (bandToEmailVerdict localResult.riskLevel) }
  else
    let g := getGeminiAnalysis true out email localResult
    { email := email
      isSpam := decide (g.1 = EmailVerdict.fake ∨ g.1 = EmailVerdict.suspicious)
      riskLevel := emailVerdictToBand g.1
      spamScore := if g.1 = EmailVerdict.fake then 85
        else if g.1 = EmailVerdict.suspicious then 60 else 20
      indicators := localResult.indicators
      reason := g.2
      aiAnalysis := some g.2
      geminiVerdict := some g.1 }

inductive URLGeminiOutcome
  | timeout
  | error
  | ok (verdict : URLRisk) (explanation : String)
deriving DecidableEq, Repr

/-- `getGeminiURLAnalysis` from check-url/route.ts: the missing-key, inner
18-second-timeout and error paths all return the fixed verdict
`suspicious`. -/
def getGeminiURLAnalysis (hasKey : Bool) (out : URLGeminiOutcome)
    ( _url : String) ( _localFindings : URLCheckResult) : URLRisk × String :=
  if !hasKey then
    (URLRisk.suspicious, "API key not configured. Using local analysis only.")
  else
    match out with
    | URLGeminiOutcome.timeout =>
      (URLRisk.suspicious,
       "AI analysis timed out. URL appears suspicious - please verify manually before clicking.")
    | URLGeminiOutcome.error =>
      (URLRisk.suspicious,
       "AI analysis encountered an error. Please verify this URL manually before clicking.")
    | URLGeminiOutcome.ok v e => (v, e)

/-- The indicator the URL route handler prepends for shortened URLs. -/
def shortenedNotice (finalUrl : String) : String :=
  "SHORTENED URL: Redirects to " ++ finalUrl

/-- The URL `POST` handler from check-url/route.ts.  `resolveTimedOut` is the
outer 5-second race around redirect resolution (on timeout the handler keeps
the default `{finalUrl: url, redirectChain: [url], isShortened: false}`);
`outerTimedOut` is the outer 22-second race around the arbitration call,
whose catch maps the local band through unchanged. -/
def urlPOST (probe : String → Option String)
    (resolveTimedOut outerTimedOut hasKey : Bool) (out : URLGeminiOutcome)
    (url : String) : URLCheckResult :=
  let redirectInfo := if resolveTimedOut then
      { finalUrl := url, redirectChain := [url], isShortened := false }
    else resolveURLRedirects probe url
  let urlToAnalyze := redirectInfo.finalUrl
  let localResult0 := performLocalURLAnalysis urlToAnalyze
  let localInds := if redirectInfo.isShortened &&
      decide (1 < redirectInfo.redirectChain.length) then
      shortenedNotice redirectInfo.finalUrl :: localResult0.indicators
    else localResult0.indicators
  let localResult := { localResult0 with
    indicators := localInds
    redirectChain := some redirectInfo.redirectChain
    finalDestination := some redirectInfo.finalUrl
    isShortened := some redirectInfo.isShortened }
  if !hasKey then
    { localResult with
      aiAnalysis := some "API key not configured. Using local analysis only.",
      geminiVerdict := some localResult.riskLevel }
  else
    let g := if outerTimedOut then (localResult.riskLevel, localResult.reason)
      else getGeminiURLAnalysis true out urlToAnalyze localResult
    { url := url
      isSafe := decide (g.1 = URLRisk.safe)
      riskLevel := g.1
      riskScore := if g.1 = URLRisk.dangerous then 85
        else if g.1 = URLRisk.suspicious then 60 else 15
      indicators := localResult.indicators
      redirectChain := some redirectInfo.redirectChain
      finalDestination := some redirectInfo.finalUrl
      isShortened := some redirectInfo.isShortened
      reason := g.2
      aiAnalysis := some g.2
      geminiVerdict := some g.1 }

/-! ## Comparison definitions and concrete oracles -/

/-- The split behavior the specification asserts (stated from the spec's
words, for comparison with `emailParts`): local part and domain split on the
last at-sign. -/
def claimSplitLastAt (emailLower : String) : Option (String × String) :=
  let ps := splitChar '@' emailLower
  if ps.length ≤ 1 then none
  else some (joinWith "@" ps.dropLast, ps.getLastD "")

/-- Probe resolving a shortened URL through two hops to a final site. -/
def probeEx : String → Option String := fun s =>
  if s == "https://bit.ly/abc123" then some "https://step.example/r"
  else if s == "https://step.example/r" then some "https://example.com"
  else none

/-- Probe with a two-element redirect cycle. -/
def probeCycle : String → Option String := fun s =>
  if s == "https://a.example/" then some "https://b.example/"
  else if s == "https://b.example/" then some "https://a.example/"
  else none

/-- Probe redirecting a URL to itself. -/
def probeSelf : String → Option String := fun s =>
  if s == "https://x.example/" then some "https://x.example/" else none

/-- Probe that never redirects. -/
def probeNone : String → Option String := fun _ => none

set_option maxRecDepth 65536

/-! ## Helper lemmas -/

theorem runChecks_foldl_eq (items : List (String × Nat)) (acc : List String × Nat) :
    items.foldl (fun st iw => (st.1 ++ [iw.1], st.2 + iw.2)) acc =
      (acc.1 ++ items.map Prod.fst, acc.2 + (items.map Prod.snd).sum) := by
  induction items generalizing acc with
  | nil => simp
  | cons x xs ih =>
    simp only [List.foldl_cons, List.map_cons, List.sum_cons]
    rw [ih]
    refine congrArg₂ Prod.mk ?_ ?_
    · simp
    · omega

theorem runChecks_eq (items : List (String × Nat)) :
    runChecks items = (items.map Prod.fst, (items.map Prod.snd).sum) := by
  unfold runChecks
  rw [runChecks_foldl_eq]
  simp

theorem emailRiskLevelOf_eq (n : Nat) :
    emailRiskLevelOf n =
      if 65 ≤ n then EmailRisk.invalid
      else if 35 ≤ n then EmailRisk.risky
      else EmailRisk.safe := by
  unfold emailRiskLevelOf
  by_cases h65 : 65 ≤ n <;> by_cases h35 : 35 ≤ n <;>
    simp [h65, h35]

theorem urlRiskLevelOf_eq (n : Nat) :
    urlRiskLevelOf n =
      if 60 ≤ n then URLRisk.dangerous
      else if 30 ≤ n then URLRisk.suspicious
      else URLRisk.safe := by
  unfold urlRiskLevelOf
  by_cases h60 : 60 ≤ n <;> by_cases h30 : 30 ≤ n <;>
    simp [h60, h30]

/-! ## Claims -/

/-- C2: for every email identifier the local scorer's risk band is derived
from the normalized score by exactly score ≥ 65 → invalid, else
score ≥ 35 → risky, else safe, and isSpam holds exactly when score > 35;
for every URL identifier score ≥ 60 → dangerous, else score ≥ 30 →
suspicious, else safe, and isSafe holds exactly when score < 30. -/
theorem c2_risk_band_thresholds (email url : String) :
    ((performLocalSpamDetection email).riskLevel =
      (if 65 ≤ (performLocalSpamDetection email).spamScore then EmailRisk.invalid
       else if 35 ≤ (performLocalSpamDetection email).spamScore then EmailRisk.risky
       else EmailRisk.safe)) ∧
    ((performLocalSpamDetection email).isSpam =
      decide (35 < (performLocalSpamDetection email).spamScore)) ∧
    ((performLocalURLAnalysis url).riskLevel =
      (if 60 ≤ (performLocalURLAnalysis url).riskScore then URLRisk.dangerous
       else if 30 ≤ (performLocalURLAnalysis url).riskScore then URLRisk.suspicious
       else URLRisk.safe)) ∧
    ((performLocalURLAnalysis url).isSafe =
      decide ((performLocalURLAnalysis url).riskScore < 30)) := by
  refine ⟨?_, ?_, ?_, ?_⟩
  · unfold performLocalSpamDetection
    rcases h : emailParts (lowerStr email) with _ | ⟨u, d⟩ <;>
      simp [mkEmailResult, emailRiskLevelOf_eq]
  · unfold performLocalSpamDetection
    rcases h : emailParts (lowerStr email) with _ | ⟨u, d⟩ <;>
      simp [mkEmailResult]
  · unfold performLocalURLAnalysis
    rcases h : parseURL url with _ | u <;>
      simp [mkURLResult, urlRiskLevelOf_eq]
  · unfold performLocalURLAnalysis
    rcases h : parseURL url with _ | u <;>
      simp [mkURLResult]

/-- C3: in both variants the local scorer's normalized score equals
min(sum of the weight contributions of all fired indicators, 100), the
indicator list is exactly the fired indicators, and the score is bounded
by 100. -/
theorem c3_score_is_clamped_weight_sum (email url : String) :
    ((performLocalSpamDetection email).spamScore =
      min ((emailFiredWith email).map Prod.snd).sum 100 ∧
     (performLocalSpamDetection email).indicators =
      (emailFiredWith email).map Prod.fst ∧
     (performLocalSpamDetection email).spamScore ≤ 100) ∧
    ((performLocalURLAnalysis url).riskScore =
      min ((urlFiredWith url).map Prod.snd).sum 100 ∧
     (performLocalURLAnalysis url).indicators =
      (urlFiredWith url).map Prod.fst ∧
     (performLocalURLAnalysis url).riskScore ≤ 100) := by
  constructor
  · unfold performLocalSpamDetection emailFiredWith
    rcases h : emailParts (lowerStr email) with _ | ⟨u, d⟩ <;>
      simp [mkEmailResult, runChecks_eq]
  · unfold performLocalURLAnalysis urlFiredWith
    rcases h : parseURL url with _ | u <;>
      simp [mkURLResult, runChecks_eq]

/-- C4 counterexample: with a two-hop redirect cycle the returned chain is
the visited sequence without the repeated URL re-appended — its last element
is not the repeated URL, contradicting the claim that the reappearance is
the last chain element. -/
theorem c4_cycle_chain_counterexample :
    (resolveURLRedirects probeCycle "https://a.example/").redirectChain =
      ["https://a.example/", "https://b.example/"] ∧
    (resolveURLRedirects probeCycle "https://a.example/").redirectChain.getLast? ≠
      some "https://a.example/" := by
  refine ⟨by decide, by decide⟩

/-- C4 (amended): when a hop's target URL is already in the chain, resolution
stops immediately without error and returns the chain visited so far, with
the repeated URL appearing only at its earlier position (it is not
re-appended). -/
theorem c4_cycle_stops_without_reappending
    (probe : String → Option String) (fuel : Nat) (cur target : String)
    (chain : List String)
    (hprobe : probe cur = some target)
    (hmem : chain.contains target = true) :
    resolveLoop probe (fuel + 1) cur chain = (cur, chain) := by
  simp only [resolveLoop, hprobe]
  rw [if_pos hmem]

/-- Witness for C4 (amended) at a self-redirecting URL. -/
theorem c4_cycle_stops_witness :
    resolveLoop probeSelf 5 "https://x.example/" ["https://x.example/"] =
      ("https://x.example/", ["https://x.example/"]) :=
  c4_cycle_stops_without_reappending probeSelf 4 "https://x.example/"
    "https://x.example/" ["https://x.example/"] (by decide) (by decide)

/-- C5 counterexample: the detector takes the first two segments of the
at-split (splitting at the first at-sign), not the last; on
`x@y@tempmail.com` it scores against domain `y`, so the disposable-domain
indicator that the last-at split would produce is absent. -/
theorem c5_split_counterexample :
    emailParts (lowerStr "x@y@tempmail.com") = some ("x", "y") ∧
    claimSplitLastAt (lowerStr "x@y@tempmail.com") =
      some ("x@y", "tempmail.com") ∧
    (some (("x" : String), ("y" : String)) ≠
      some (("x@y" : String), ("tempmail.com" : String))) ∧
    disposableDomains.contains "tempmail.com" = true ∧
    ((performLocalSpamDetection "x@y@tempmail.com").indicators.contains
      "Disposable/temporary email domain detected") = false := by
  refine ⟨by decide, by decide, by decide, by decide, by decide⟩

/-- C5 (amended): the detector splits at the first at-sign (the first two
segments of the full at-split); whenever the first or second segment is empty
or missing it short-circuits without running any scoring rule to a
maximum-risk result (score 100, most severe band, isSpam true) whose
indicator list is exactly the single invalid-format indicator. -/
theorem c5_empty_part_short_circuits (email : String)
    (h : emailParts (lowerStr email) = none) :
    performLocalSpamDetection email =
      { email := email, isSpam := true, riskLevel := EmailRisk.invalid,
        spamScore := 100, indicators := ["Invalid email format"],
        reason := "Email format is invalid", aiAnalysis := none,
        geminiVerdict := none } := by
  unfold performLocalSpamDetection
  rw [h]

/-- Witness for C5 (amended) at an input with no at-sign. -/
theorem c5_empty_part_witness :
    emailParts (lowerStr "abc") = none ∧
    performLocalSpamDetection "abc" =
      { email := "abc", isSpam := true, riskLevel := EmailRisk.invalid,
        spamScore := 100, indicators := ["Invalid email format"],
        reason := "Email format is invalid", aiAnalysis := none,
        geminiVerdict := none } :=
  ⟨by decide, c5_empty_part_short_circuits "abc" (by decide)⟩

/-- C1 counterexample: for `john@example.org` the local band is `safe`
(which the claimed mapping sends to `legitimate`), yet after an arbitration
error the displayed verdict is the fixed `suspicious` with band `risky` —
the timeout/error fallback does not map the Local Scorer's band. -/
theorem c1_error_fallback_counterexample :
    (performLocalSpamDetection "john@example.org").riskLevel = EmailRisk.safe ∧
    bandToEmailVerdict EmailRisk.safe = EmailVerdict.legitimate ∧
    (emailPOST true EmailGeminiOutcome.error "john@example.org").geminiVerdict =
      some EmailVerdict.suspicious ∧
    (emailPOST true EmailGeminiOutcome.error "john@example.org").riskLevel =
      EmailRisk.risky := by
  refine ⟨by decide, rfl, by decide, by decide⟩

/-- C1 (amended): when the arbitration call itself errors or times out after
being attempted, the gateway synthesizes the fixed middle verdict
`suspicious` regardless of the Local Scorer's band; the direct
band-to-verdict mapping happens only on the unreachable/unconfigured path
(and in the URL route's outer race-timeout catch). -/
theorem c1_error_fallback_fixed_suspicious :
    (∀ email,
      (emailPOST true EmailGeminiOutcome.error email).geminiVerdict =
        some EmailVerdict.suspicious ∧
      (emailPOST true EmailGeminiOutcome.error email).riskLevel = EmailRisk.risky) ∧
    (∀ email out,
      (emailPOST false out email).geminiVerdict =
        some (bandToEmailVerdict (performLocalSpamDetection email).riskLevel)) ∧
    (∀ probe rt ot out url,
      (urlPOST probe rt ot false out url).geminiVerdict =
        some (performLocalURLAnalysis
          (if rt then url else (resolveURLRedirects probe url).finalUrl)).riskLevel) ∧
    (∀ probe rt url,
      (urlPOST probe rt false true URLGeminiOutcome.timeout url).geminiVerdict =
        some URLRisk.suspicious ∧
      (urlPOST probe rt false true URLGeminiOutcome.error url).geminiVerdict =
        some URLRisk.suspicious) := by
  refine ⟨?_, ?_, ?_, ?_⟩
  · intro email
    simp [emailPOST, getGeminiAnalysis, emailVerdictToBand]
  · intro email out
    simp [emailPOST]
  · intro probe rt ot out url
    cases rt <;> simp [urlPOST]
  · intro probe rt url
    cases rt <;> simp [urlPOST, getGeminiURLAnalysis]

/-- C6 counterexample: for a shortened URL that redirects, the URL route
prepends a shortened-URL notice, so the final indicator list is not the one
the Local Scorer emitted for the analyzed destination. -/
theorem c6_indicators_modified_counterexample :
    (urlPOST probeEx false false true (URLGeminiOutcome.ok URLRisk.safe "ok")
        "https://bit.ly/abc123").indicators ≠
      (performLocalURLAnalysis
        (resolveURLRedirects probeEx "https://bit.ly/abc123").finalUrl).indicators := by
  decide

/-- C6 (amended): the email route carries the Local Scorer's indicator list
into the final result unmodified, and the URL route carries the redirect
chain through untouched; the URL route also carries the Local Scorer's
indicators in emission order, except that when the resolver flagged the URL
as shortened and the chain has more than one element a single shortened-URL
notice is prepended. -/
theorem c6_assembly_carries_local_data :
    (∀ hasKey out email,
      (emailPOST hasKey out email).indicators =
        (performLocalSpamDetection email).indicators) ∧
    (∀ probe rt ot hasKey out url,
      (urlPOST probe rt ot hasKey out url).indicators =
        (let ri := if rt then RedirectInfo.mk url [url] false
          else resolveURLRedirects probe url
         if ri.isShortened && decide (1 < ri.redirectChain.length) then
           shortenedNotice ri.finalUrl ::
             (performLocalURLAnalysis ri.finalUrl).indicators
         else (performLocalURLAnalysis ri.finalUrl).indicators) ∧
      (urlPOST probe rt ot hasKey out url).redirectChain =
        some (if rt then [url]
          else (resolveURLRedirects probe url).redirectChain)) := by
  constructor
  · intro hasKey out email
    cases hasKey <;> simp [emailPOST]
  · intro probe rt ot hasKey out url
    cases rt <;> cases hasKey <;> cases ot <;> simp [urlPOST]

/-- C8: the URL route analyzes the redirect resolver's final destination
(carried as `finalDestination`, with the indicators coming from analyzing
it); if resolution times out it falls back to analyzing the original input.
The mocked shortened-URL scenario resolves through two redirects to
`https://example.com` with chain length 3 and `isShortened = true`, and the
final result's indicators are those of analyzing `https://example.com`
(plus the prepended shortened-URL notice). -/
theorem c8_scores_final_destination :
    (∀ (probe : String → Option String) hasKey out url,
      (urlPOST probe false false hasKey out url).finalDestination =
        some (resolveURLRedirects probe url).finalUrl ∧
      (urlPOST probe true false hasKey out url).finalDestination = some url ∧
      (urlPOST probe true false hasKey out url).indicators =
        (performLocalURLAnalysis url).indicators) ∧
    resolveURLRedirects probeEx "https://bit.ly/abc123" =
      { finalUrl := "https://example.com"
        redirectChain := ["https://bit.ly/abc123", "https://step.example/r",
          "https://example.com"]
        isShortened := true } ∧
    (urlPOST probeEx false false true (URLGeminiOutcome.ok URLRisk.safe "ok")
        "https://bit.ly/abc123").indicators =
      shortenedNotice "https://example.com" ::
        (performLocalURLAnalysis "https://example.com").indicators := by
  refine ⟨?_, by decide, by decide⟩
  intro probe hasKey out url
  refine ⟨?_, ?_, ?_⟩ <;> cases hasKey <;> simp [urlPOST]

/-- C9: the local URL analyzer is total, and on any input the URL parser
rejects it returns the maximum-severity result: riskScore 100, riskLevel
dangerous, isSafe false, with the single parse-failure indicator. -/
theorem c9_parse_failure_max_severity (url : String)
    (h : parseURL url = none) :
    performLocalURLAnalysis url =
      { url := url, isSafe := false, riskLevel := URLRisk.dangerous,
        riskScore := 100,
        indicators := ["Invalid URL format - unable to parse"],
        redirectChain := none, finalDestination := none, isShortened := none,
        reason := "URL parsing failed - potentially malformed or malicious",
        aiAnalysis := none, geminiVerdict := none } := by
  unfold performLocalURLAnalysis
  rw [h]

/-- Witness for C9 at a scheme-less input the parser rejects. -/
theorem c9_parse_failure_witness :
    parseURL "not a url" = none ∧
    performLocalURLAnalysis "not a url" =
      { url := "not a url", isSafe := false, riskLevel := URLRisk.dangerous,
        riskScore := 100,
        indicators := ["Invalid URL format - unable to parse"],
        redirectChain := none, finalDestination := none, isShortened := none,
        reason := "URL parsing failed - potentially malformed or malicious",
        aiAnalysis := none, geminiVerdict := none } :=
  ⟨by decide, c9_parse_failure_max_severity "not a url" (by decide)⟩

/-- C10: shortener detection is substring containment, not set membership:
whenever any listed shortener domain occurs as a substring of the parsed
(lower-cased) hostname, the resolver flags `isShortened` and the local
scorer emits the URL-shortener indicator (weight 40). -/
theorem c10_shortener_substring
    (probe : String → Option String) (url : String) (u : URLParts)
    (hp : parseURL url = some u)
    (hsub : ∃ s ∈ urlShorteners, strIncludes u.hostname s = true) :
    (resolveURLRedirects probe url).isShortened = true ∧
    "URL SHORTENER: Link hides real destination (could redirect to malicious site)" ∈
      (performLocalURLAnalysis url).indicators := by
  have hany : urlShorteners.any (fun s => strIncludes u.hostname s) = true := by
    rw [List.any_eq_true]
    obtain ⟨s, hs, h⟩ := hsub
    exact ⟨s, hs, h⟩
  constructor
  · simp only [resolveURLRedirects, hp]
    exact hany
  · have h1 : performLocalURLAnalysis url =
        mkURLResult url (runChecks (urlFiredIndicators url u)) := by
      unfold performLocalURLAnalysis
      rw [hp]
    rw [h1]
    simp only [mkURLResult]
    rw [runChecks_eq]
    dsimp only
    refine List.mem_map.mpr
      ⟨("URL SHORTENER: Link hides real destination (could redirect to malicious site)",
        40), ?_, rfl⟩
    simp only [urlFiredIndicators, List.append_assoc]
    apply List.mem_append_right
    apply List.mem_append_right
    apply List.mem_append_left
    simp [condInd, hany]

/-- Witness for C10 at `https://best.com/x`: the hostname `best.com` is not
itself a listed shortener, but it contains `t.co` as a substring, so both
flags fire. -/
theorem c10_shortener_witness :
    (resolveURLRedirects probeNone "https://best.com/x").isShortened = true ∧
    "URL SHORTENER: Link hides real destination (could redirect to malicious site)" ∈
      (performLocalURLAnalysis "https://best.com/x").indicators ∧
    "best.com" ∉ urlShorteners := by
  have h := c10_shortener_substring probeNone "https://best.com/x"
    { scheme := "https", hostname := "best.com", port := "", pathname := "/x",
      search := "" }
    (by decide) ⟨"t.co", by decide, by decide⟩
  exact ⟨h.1, h.2, by decide⟩

/-- Weight 55 is used by no rule other than the fuzzy brand match, so
filtering on it isolates fuzzy-match indicators. -/
theorem filter55_condInd (b : Bool) (d : String) (w : Nat)
    (hw : (w == 55) = false) :
    (condInd b d w).filter (fun p => p.2 == 55) = [] := by
  unfold condInd
  cases b <;> simp [hw]

theorem min40_beq_55 (n : Nat) : (min n 40 == 55) = false := by
  rw [beq_eq_false_iff_ne]
  omega

theorem filter55_suffixLoop (domain : String) (l : List String) :
    (emailSuffixLoop domain l).filter (fun p => p.2 == 55) = [] := by
  induction l with
  | nil => simp [emailSuffixLoop]
  | cons s rest ih =>
    unfold emailSuffixLoop
    split
    · simp
    · exact ih

theorem filter55_keyboardLoop (baseDomain : String)
    (l : List (String × List String)) :
    (emailKeyboardLoop baseDomain l).filter (fun p => p.2 == 55) = [] := by
  induction l with
  | nil => simp [emailKeyboardLoop]
  | cons p rest ih =>
    obtain ⟨leg, ty⟩ := p
    simp only [emailKeyboardLoop]
    split
    · simp
    · exact ih

theorem filter55_brandLoop (domain baseDomain : String)
    (l : List (String × List String)) :
    (emailBrandLoop domain baseDomain l).filter (fun p => p.2 == 55) =
      (match l.find? (fun p =>
          isFuzzyHit (brandNameOf baseDomain) (brandNameOf p.1)) with
       | some p => [(fuzzyDesc (brandNameOf baseDomain) (brandNameOf p.1), 55)]
       | none => []) := by
  induction l with
  | nil => simp [emailBrandLoop]
  | cons p rest ih =>
    obtain ⟨leg, ty⟩ := p
    simp only [emailBrandLoop]
    by_cases hf : isFuzzyHit (brandNameOf baseDomain) (brandNameOf leg) = true
    · rw [if_pos hf]
      rw [List.filter_append, filter55_condInd _ _ 75 rfl]
      simp [List.find?, hf]
    · have hf2 : isFuzzyHit (brandNameOf baseDomain) (brandNameOf leg) = false := by
        simpa using hf
      rw [if_neg hf]
      rw [List.filter_append, filter55_condInd _ _ 75 rfl]
      simp only [List.nil_append]
      rw [ih]
      simp [List.find?, hf2]

/-- C7: in the email pipeline the fuzzy brand-match indicator (the only rule
with weight 55) fires exactly when some known legitimate brand name is within
edit distance 1-2 of the candidate's base domain name of length ≥ 4
(`isFuzzyHit`), at most once per identifier, for the first such brand in
rule-evaluation order; and on `support-id-7193@service.amason.com` the local
score reaches ≥ 55 with band risky or worse. -/
theorem c7_fuzzy_brand_match :
    (∀ email username domain,
      (emailFiredIndicators email username domain).filter (fun p => p.2 == 55) =
        (match trustedBrandsList.find? (fun p =>
            isFuzzyHit (baseNameOf domain) (brandNameOf p.1)) with
         | some p => [(fuzzyDesc (baseNameOf domain) (brandNameOf p.1), 55)]
         | none => [])) ∧
    55 ≤ (performLocalSpamDetection "support-id-7193@service.amason.com").spamScore ∧
    ((performLocalSpamDetection "support-id-7193@service.amason.com").riskLevel =
        EmailRisk.risky ∨
     (performLocalSpamDetection "support-id-7193@service.amason.com").riskLevel =
        EmailRisk.invalid) := by
  refine ⟨?_, by decide, by decide⟩
  intro email username domain
  simp only [emailFiredIndicators, List.filter_append, filter55_brandLoop,
    filter55_keyboardLoop, filter55_suffixLoop, expiredDomainWords,
    List.map_cons, List.map_nil, List.flatten_cons, List.flatten_nil,
    baseNameOf]
  simp [filter55_condInd, min40_beq_55]
